import Mathlib

/-!
Shallow embedding of `src/server.py` (F5 iHealth MCP server) and proofs of the
specification claims about it.

Modelling conventions:
* Wall-clock times (`time.time()`) are modelled as integers counting seconds.
* The process environment and the two network endpoints (token endpoint and the
  iHealth API) are modelled by an `Env` oracle fixing, for one call, the
  credential environment variables, the current time, the outcome of a token
  exchange should one be issued, and the outcome of an API request should one
  be issued.
* A Python function that can raise an exception is modelled as returning
  `Except String α`; an exception caught inside the source function never
  surfaces as `Except.error`.
* Byte strings are modelled as `String`; `len(response.content)` becomes
  `String.length` of the body.
-/

namespace IHealth

/-- Substring containment on `List Char`: `hasSubList s pat` holds when `pat`
occurs contiguously in `s`.  Models Python's `pat in s` for non-empty `pat`. -/
def hasSubList : List Char → List Char → Bool
  | [], pat => pat.isEmpty
  | c :: rest, pat => pat.isPrefixOf (c :: rest) || hasSubList rest pat

/-- Python `pat in s` on strings (substring containment). -/
def strContains (s pat : String) : Bool :=
  hasSubList s.data pat.data

/-- Python `str.upper()` (ASCII, which is all the source uses it for). -/
def pyUpper (s : String) : String :=
  String.mk (s.data.map Char.toUpper)

/-- Python `str.lower()` (ASCII, which is all the source uses it for). -/
def pyLower (s : String) : String :=
  String.mk (s.data.map Char.toLower)

/-- The module-level `_token_cache = {"token": None, "expires_at": 0}`. -/
structure TokenCache where
  token : Option String
  expires_at : Int
deriving Repr, DecidableEq

/-- The cache value at process start. -/
def initialCache : TokenCache := { token := none, expires_at := 0 }

/-- Python truthiness of `_token_cache["token"]`: `None` and `""` are falsy. -/
def tokenTruthy : Option String → Bool
  | none => false
  | some s => ¬(s = "")

/-- The message of the `ValueError` raised by `get_credentials`. -/
def credentialsError : String :=
  "F5_IHEALTH_CLIENT_ID and F5_IHEALTH_CLIENT_SECRET environment variables are required"

/-- `get_credentials()`: reads the two environment variables (modelled as the
two string arguments, `os.environ.get` defaulting a missing variable to `""`)
and raises `ValueError` when either is empty. -/
def get_credentials (client_id client_secret : String) : Except String (String × String) :=
  if client_id = "" ∨ client_secret = "" then Except.error credentialsError
  else Except.ok (client_id, client_secret)

/-- Oracle for one client-credentials exchange (`POST` to the token endpoint
followed by `raise_for_status`, `response.json()` and the `access_token`
lookup): either a parsed success body, an HTTP error status, or any other
failure (transport error, malformed JSON, missing `access_token` key). -/
inductive ExchangeOutcome where
  | success (access_token : String) (expires_in : Option Int)
  | httpError (status : Nat) (body : String)
  | otherError (msg : String)
deriving Repr, DecidableEq

/-- Result of `get_auth_token()`: the returned token or the raised
`ValueError` message, the cache afterwards, and how many token-exchange
network calls were issued. -/
structure AuthResult where
  result : Except String String
  cache : TokenCache
  exchanges : Nat
deriving Repr

/-- `get_auth_token()` from `src/server.py`.

```
current_time = time.time()
if _token_cache["token"] and current_time < _token_cache["expires_at"] - 60:
    return _token_cache["token"]
client_id, client_secret = get_credentials()
... POST to TOKEN_URL ...
_token_cache["token"] = token_data["access_token"]
_token_cache["expires_at"] = current_time + token_data.get("expires_in", 1800)
```

The HTTP-status failure raises `ValueError("Authentication failed: <status>")`
and any other failure raises `ValueError("Authentication failed: <msg>")`;
the `ValueError` from `get_credentials` is raised before the `try` block and
propagates with its own message. -/
def get_auth_token (client_id client_secret : String) (now : Int)
    (exchange : ExchangeOutcome) (cache : TokenCache) : AuthResult :=
  if tokenTruthy cache.token ∧ now < cache.expires_at - 60 then
    { result := Except.ok (cache.token.getD ""), cache := cache, exchanges := 0 }
  else
    match get_credentials client_id client_secret with
    | Except.error msg => { result := Except.error msg, cache := cache, exchanges := 0 }
    | Except.ok _ =>
      match exchange with
      | ExchangeOutcome.success tok exp =>
          { result := Except.ok tok,
            cache := { token := some tok, expires_at := now + exp.getD 1800 },
            exchanges := 1 }
      | ExchangeOutcome.httpError status _ =>
          { result := Except.error ("Authentication failed: " ++ toString status),
            cache := cache, exchanges := 1 }
      | ExchangeOutcome.otherError msg =>
          { result := Except.error ("Authentication failed: " ++ msg),
            cache := cache, exchanges := 1 }

/-- One HTTP response from the iHealth API.  `jsonResult` models the effect of
calling `response.json()` on it: the parsed (and, for this embedding, already
pretty-printed) document, or the decode-error message of the exception the
parse raises. -/
structure HttpResponse where
  status : Nat
  content_type : String
  body : String
  jsonResult : Except String String
deriving Repr

/-- Oracle for the API round trip: either a response arrives or the transport
raises (connection failure, timeout, TLS error, ...). -/
inductive RequestOutcome where
  | response (r : HttpResponse)
  | transportError (msg : String)
deriving Repr

/-- The dict shapes `make_api_request` can return, one constructor per
`return` statement in its body. -/
inductive ApiResult where
  /-- `{"status": "processing", "message": "Request accepted, processing in progress. Retry in 10 seconds."}` -/
  | processing
  /-- `response.json()` — the parsed document, abstracted as its rendering. -/
  | jsonObj (doc : String)
  /-- `{"xml_content": response.text}` -/
  | xmlContent (text : String)
  /-- `{"binary_size": len(response.content), "message": "Binary content retrieved successfully"}` -/
  | binarySummary (size : Nat)
  /-- `{"content": response.text}` -/
  | content (text : String)
  /-- `{"error": ..., "details": ...}` (`details` key absent when `none`). -/
  | errorShape (error : String) (details : Option String)
deriving Repr, DecidableEq

/-- The per-call environment oracle: credential environment variables, the
current time, and what the two remote endpoints would answer. -/
structure Env where
  client_id : String
  client_secret : String
  now : Int
  exchange : ExchangeOutcome
  request : RequestOutcome
deriving Repr

/-- Result of `make_api_request`: the returned dict or the uncaught
`ValueError` propagating out of `get_auth_token`, the token cache afterwards,
and how many token-exchange / API network calls were issued. -/
structure ApiCallResult where
  result : Except String ApiResult
  cache : TokenCache
  exchanges : Nat
  requests : Nat
deriving Repr

/-- `method.upper() in {"GET", "POST", "PUT", "DELETE"}` — the four dispatch
arms of `make_api_request`. -/
def supportedMethod (method : String) : Bool :=
  pyUpper method == "GET" || pyUpper method == "POST" ||
    pyUpper method == "PUT" || pyUpper method == "DELETE"

/-- Classification of a received response, lines 101–112 of `src/server.py`:
the 202 check, then `raise_for_status` (httpx raises `HTTPStatusError` for
every non-2xx status; the handler turns it into the error dict carrying
`e.response.status_code` and `e.response.text`), then the `Content-Type`
substring chain. -/
def classify (r : HttpResponse) : ApiResult :=
  if r.status = 202 then
    ApiResult.processing
  else if r.status < 200 ∨ 300 ≤ r.status then
    ApiResult.errorShape ("API request failed: " ++ toString r.status) (some r.body)
  else if strContains r.content_type "application/json" ∨
      strContains r.content_type "application/vnd.f5.ihealth.api+json" then
    match r.jsonResult with
    | Except.ok doc => ApiResult.jsonObj doc
    | Except.error msg => ApiResult.errorShape ("API request failed: " ++ msg) none
  else if strContains r.content_type "application/xml" ∨
      strContains r.content_type "text/xml" then
    ApiResult.xmlContent r.body
  else if strContains r.content_type "application/octet-stream" then
    ApiResult.binarySummary r.body.length
  else
    ApiResult.content r.body

/-- `make_api_request(method, endpoint, accept_type, data, files)`.

`get_auth_token()` is called on line 78, before the `try` block: the
`ValueError` it may raise propagates out of `make_api_request` uncaught
(`Except.error`).  Inside the `try`, an unsupported method raises
`ValueError(f"Unsupported HTTP method: {method}")`, which the function's own
`except Exception` handler catches and converts to the error dict — so no API
request is issued but the call still returns normally.  A transport-level
exception from a dispatched request is caught the same way.  `endpoint`,
`accept_type`, `data` and `files` shape the outgoing request, whose answer the
`Env` oracle fixes; they do not influence classification. -/
def make_api_request (env : Env) (method endpoint accept_type : String)
    (data : List (String × String)) (files : Bool) (cache : TokenCache) : ApiCallResult :=
  let auth := get_auth_token env.client_id env.client_secret env.now env.exchange cache
  match auth.result with
  | Except.error msg =>
      { result := Except.error msg, cache := auth.cache,
        exchanges := auth.exchanges, requests := 0 }
  | Except.ok _ =>
      if supportedMethod method then
        match env.request with
        | RequestOutcome.transportError msg =>
            { result := Except.ok (ApiResult.errorShape ("API request failed: " ++ msg) none),
              cache := auth.cache, exchanges := auth.exchanges, requests := 1 }
        | RequestOutcome.response r =>
            { result := Except.ok (classify r),
              cache := auth.cache, exchanges := auth.exchanges, requests := 1 }
      else
        { result := Except.ok (ApiResult.errorShape
              ("API request failed: Unsupported HTTP method: " ++ method) none),
          cache := auth.cache, exchanges := auth.exchanges, requests := 0 }

/-- `format_response(data)`.  The error branch
(`f"Error: {data['error']}\nDetails: {data.get('details', 'No additional details')}"`)
is rendered exactly as the source does; the remaining branches are
`json.dumps(data, indent=2, default=str)` of the corresponding dict, with JSON
string escaping elided (no theorem below depends on those renderings). -/
def format_response : ApiResult → String
  | ApiResult.errorShape err details =>
      "Error: " ++ err ++ "\nDetails: " ++ details.getD "No additional details"
  | ApiResult.processing =>
      "\x7b\n  \"status\": \"processing\",\n  \"message\": \"Request accepted, processing in progress. Retry in 10 seconds.\"\n\x7d"
  | ApiResult.jsonObj doc => doc
  | ApiResult.xmlContent t =>
      "\x7b\n  \"xml_content\": \"" ++ t ++ "\"\n\x7d"
  | ApiResult.binarySummary n =>
      "\x7b\n  \"binary_size\": " ++ toString n ++ ",\n  \"message\": \"Binary content retrieved successfully\"\n\x7d"
  | ApiResult.content t =>
      "\x7b\n  \"content\": \"" ++ t ++ "\"\n\x7d"

/-- Result of one tool call: the text returned to the host, or the message of
an exception that propagated past the tool-function boundary, plus the token
cache afterwards and the network-call counts. -/
structure ToolOutcome where
  result : Except String String
  cache : TokenCache
  exchanges : Nat
  requests : Nat
deriving Repr

/-- A tool returning early (parameter validation), before any network code. -/
def localReturn (text : String) (cache : TokenCache) : ToolOutcome :=
  { result := Except.ok text, cache := cache, exchanges := 0, requests := 0 }

/-- `result = make_api_request(...); return format_response(result)` — the
tail shared by every tool that does not wrap the call in its own `try`: a
`ValueError` raised inside `make_api_request`'s preamble propagates. -/
def formatOrRaise (a : ApiCallResult) : ToolOutcome :=
  match a.result with
  | Except.error msg =>
      { result := Except.error msg, cache := a.cache,
        exchanges := a.exchanges, requests := a.requests }
  | Except.ok r =>
      { result := Except.ok (format_response r), cache := a.cache,
        exchanges := a.exchanges, requests := a.requests }

/-- `list_qkviews()`. -/
def list_qkviews (env : Env) (cache : TokenCache) : ToolOutcome :=
  formatOrRaise (make_api_request env "GET" "/qkviews" "" [] false cache)

/-- `upload_qkview(file_path, description, visible_in_gui, f5_support_case,
share_with_case_owner)`.  `fileExists` models `os.path.exists`.  The `try`
block wraps both the file open and the API call, so every exception from them
— including a `ValueError` from `get_auth_token` — is caught and rendered as
`"Error uploading QKView: <msg>"`. -/
def upload_qkview (env : Env) (fileExists : String → Bool)
    (file_path description visible_in_gui f5_support_case share_with_case_owner : String)
    (cache : TokenCache) : ToolOutcome :=
  if file_path = "" then
    localReturn "Error: file_path parameter is required" cache
  else if ¬ fileExists file_path then
    localReturn ("Error: File not found: " ++ file_path) cache
  else
    let data :=
      (if ¬(description = "") then [("description", description)] else []) ++
      (if ¬(visible_in_gui = "") then [("visible_in_gui", visible_in_gui)] else []) ++
      (if ¬(f5_support_case = "") then [("f5_support_case", f5_support_case)] else []) ++
      (if ¬(share_with_case_owner = "") then [("share_with_case_owner", share_with_case_owner)] else [])
    let a := make_api_request env "POST" "/qkviews" "" data true cache
    match a.result with
    | Except.error msg =>
        { result := Except.ok ("Error uploading QKView: " ++ msg), cache := a.cache,
          exchanges := a.exchanges, requests := a.requests }
    | Except.ok r =>
        { result := Except.ok (format_response r), cache := a.cache,
          exchanges := a.exchanges, requests := a.requests }

/-- `delete_qkview(qkview_id)`. -/
def delete_qkview (env : Env) (qkview_id : String) (cache : TokenCache) : ToolOutcome :=
  if qkview_id = "" then
    localReturn "Error: qkview_id parameter is required" cache
  else
    formatOrRaise (make_api_request env "DELETE" ("/qkviews/" ++ qkview_id) "" [] false cache)

/-- `delete_all_qkviews()`. -/
def delete_all_qkviews (env : Env) (cache : TokenCache) : ToolOutcome :=
  formatOrRaise (make_api_request env "DELETE" "/qkviews" "" [] false cache)

/-- `get_qkview_metadata(qkview_id)`. -/
def get_qkview_metadata (env : Env) (qkview_id : String) (cache : TokenCache) : ToolOutcome :=
  if qkview_id = "" then
    localReturn "Error: qkview_id parameter is required" cache
  else
    formatOrRaise (make_api_request env "GET" ("/qkviews/" ++ qkview_id) "" [] false cache)

/-- `update_qkview_metadata(qkview_id, description, visible_in_gui,
f5_support_case, non_f5_case)`. -/
def update_qkview_metadata (env : Env)
    (qkview_id description visible_in_gui f5_support_case non_f5_case : String)
    (cache : TokenCache) : ToolOutcome :=
  if qkview_id = "" then
    localReturn "Error: qkview_id parameter is required" cache
  else
    let data :=
      (if ¬(description = "") then [("description", description)] else []) ++
      (if ¬(visible_in_gui = "") then [("visible_in_gui", visible_in_gui)] else []) ++
      (if ¬(f5_support_case = "") then [("f5_support_case", f5_support_case)] else []) ++
      (if ¬(non_f5_case = "") then [("non_f5_case", non_f5_case)] else [])
    if data.isEmpty then
      localReturn "Error: At least one metadata field must be provided to update" cache
    else
      formatOrRaise (make_api_request env "PUT" ("/qkviews/" ++ qkview_id) "" data false cache)

/-- The endpoint built by `get_qkview_diagnostics`: `?set=<value>` appended
exactly when `diagnostic_set in ["hit", "miss"]`. -/
def get_qkview_diagnostics_endpoint (qkview_id diagnostic_set : String) : String :=
  let endpoint := "/qkviews/" ++ qkview_id ++ "/diagnostics"
  if diagnostic_set = "hit" ∨ diagnostic_set = "miss" then
    endpoint ++ "?set=" ++ diagnostic_set
  else
    endpoint

/-- The `Accept` media type chosen by `get_qkview_diagnostics`:
`format_map.get(output_format.lower(), "application/vnd.f5.ihealth.api+json")`. -/
def diagnostics_accept_type (output_format : String) : String :=
  if pyLower output_format = "json" then "application/vnd.f5.ihealth.api+json"
  else if pyLower output_format = "xml" then "application/vnd.f5.ihealth.api+xml"
  else if pyLower output_format = "pdf" then "application/pdf"
  else if pyLower output_format = "csv" then "text/csv"
  else "application/vnd.f5.ihealth.api+json"

/-- `get_qkview_diagnostics(qkview_id, diagnostic_set, output_format)`. -/
def get_qkview_diagnostics (env : Env)
    (qkview_id diagnostic_set output_format : String) (cache : TokenCache) : ToolOutcome :=
  if qkview_id = "" then
    localReturn "Error: qkview_id parameter is required" cache
  else
    formatOrRaise (make_api_request env "GET"
      (get_qkview_diagnostics_endpoint qkview_id diagnostic_set)
      (diagnostics_accept_type output_format) [] false cache)

/-- `get_diagnostics_hits(qkview_id)`. -/
def get_diagnostics_hits (env : Env) (qkview_id : String) (cache : TokenCache) : ToolOutcome :=
  if qkview_id = "" then
    localReturn "Error: qkview_id parameter is required" cache
  else
    formatOrRaise (make_api_request env "GET"
      ("/qkviews/" ++ qkview_id ++ "/diagnostics?set=hit") "" [] false cache)

/-- `get_diagnostics_misses(qkview_id)`. -/
def get_diagnostics_misses (env : Env) (qkview_id : String) (cache : TokenCache) : ToolOutcome :=
  if qkview_id = "" then
    localReturn "Error: qkview_id parameter is required" cache
  else
    formatOrRaise (make_api_request env "GET"
      ("/qkviews/" ++ qkview_id ++ "/diagnostics?set=miss") "" [] false cache)

/-- `list_qkview_files(qkview_id)`. -/
def list_qkview_files (env : Env) (qkview_id : String) (cache : TokenCache) : ToolOutcome :=
  if qkview_id = "" then
    localReturn "Error: qkview_id parameter is required" cache
  else
    formatOrRaise (make_api_request env "GET"
      ("/qkviews/" ++ qkview_id ++ "/files") "" [] false cache)

/-- `get_qkview_file(qkview_id, file_hash)`. -/
def get_qkview_file (env : Env) (qkview_id file_hash : String) (cache : TokenCache) : ToolOutcome :=
  if qkview_id = "" then
    localReturn "Error: qkview_id parameter is required" cache
  else if file_hash = "" then
    localReturn "Error: file_hash parameter is required" cache
  else
    formatOrRaise (make_api_request env "GET"
      ("/qkviews/" ++ qkview_id ++ "/files/" ++ file_hash)
      "application/octet-stream" [] false cache)

/-- `download_original_qkview(qkview_id)`. -/
def download_original_qkview (env : Env) (qkview_id : String) (cache : TokenCache) : ToolOutcome :=
  if qkview_id = "" then
    localReturn "Error: qkview_id parameter is required" cache
  else
    formatOrRaise (make_api_request env "GET"
      ("/qkviews/" ++ qkview_id ++ "/files/qkview")
      "application/octet-stream" [] false cache)

/-- `list_available_commands(qkview_id)`. -/
def list_available_commands (env : Env) (qkview_id : String) (cache : TokenCache) : ToolOutcome :=
  if qkview_id = "" then
    localReturn "Error: qkview_id parameter is required" cache
  else
    formatOrRaise (make_api_request env "GET"
      ("/qkviews/" ++ qkview_id ++ "/commands") "" [] false cache)

/-- `get_command_output(qkview_id, command_name)`. -/
def get_command_output (env : Env) (qkview_id command_name : String) (cache : TokenCache) : ToolOutcome :=
  if qkview_id = "" then
    localReturn "Error: qkview_id parameter is required" cache
  else if command_name = "" then
    localReturn "Error: command_name parameter is required" cache
  else
    formatOrRaise (make_api_request env "GET"
      ("/qkviews/" ++ qkview_id ++ "/commands/" ++ command_name) "" [] false cache)

/-- `get_bigip_info(qkview_id)`. -/
def get_bigip_info (env : Env) (qkview_id : String) (cache : TokenCache) : ToolOutcome :=
  if qkview_id = "" then
    localReturn "Error: qkview_id parameter is required" cache
  else
    formatOrRaise (make_api_request env "GET"
      ("/qkviews/" ++ qkview_id ++ "/bigip") "" [] false cache)

/-- `get_bigip_slot_info(qkview_id, slot_number)`. -/
def get_bigip_slot_info (env : Env) (qkview_id slot_number : String) (cache : TokenCache) : ToolOutcome :=
  if qkview_id = "" then
    localReturn "Error: qkview_id parameter is required" cache
  else
    formatOrRaise (make_api_request env "GET"
      ("/qkviews/" ++ qkview_id ++ "/bigip/" ++ slot_number) "" [] false cache)

/-- `get_hardware_info(qkview_id, slot_number)`. -/
def get_hardware_info (env : Env) (qkview_id slot_number : String) (cache : TokenCache) : ToolOutcome :=
  if qkview_id = "" then
    localReturn "Error: qkview_id parameter is required" cache
  else
    formatOrRaise (make_api_request env "GET"
      ("/qkviews/" ++ qkview_id ++ "/bigip/" ++ slot_number ++ "/hardware") "" [] false cache)

/-- `get_software_info(qkview_id, slot_number)`. -/
def get_software_info (env : Env) (qkview_id slot_number : String) (cache : TokenCache) : ToolOutcome :=
  if qkview_id = "" then
    localReturn "Error: qkview_id parameter is required" cache
  else
    formatOrRaise (make_api_request env "GET"
      ("/qkviews/" ++ qkview_id ++ "/bigip/" ++ slot_number ++ "/software") "" [] false cache)

/-- `get_license_info(qkview_id, slot_number)`. -/
def get_license_info (env : Env) (qkview_id slot_number : String) (cache : TokenCache) : ToolOutcome :=
  if qkview_id = "" then
    localReturn "Error: qkview_id parameter is required" cache
  else
    formatOrRaise (make_api_request env "GET"
      ("/qkviews/" ++ qkview_id ++ "/bigip/" ++ slot_number ++ "/license") "" [] false cache)

/-- `get_api_info()`. -/
def get_api_info (env : Env) (cache : TokenCache) : ToolOutcome :=
  formatOrRaise (make_api_request env "GET" "/" "" [] false cache)

/-- `search_qkview_logs(qkview_id, search_term)`. -/
def search_qkview_logs (env : Env) (qkview_id search_term : String) (cache : TokenCache) : ToolOutcome :=
  if qkview_id = "" then
    localReturn "Error: qkview_id parameter is required" cache
  else if search_term = "" then
    localReturn "Error: search_term parameter is required" cache
  else
    formatOrRaise (make_api_request env "GET"
      ("/qkviews/" ++ qkview_id ++ "/logs?search=" ++ search_term) "" [] false cache)

/-- `validate_credentials()`: wraps `get_auth_token()` in `try`/`except`, so
every raised `ValueError` is rendered as `"Error: <msg>"`; an empty-string
token is falsy, giving the `"Error: Failed to obtain auth token"` branch. -/
def validate_credentials (env : Env) (cache : TokenCache) : ToolOutcome :=
  let auth := get_auth_token env.client_id env.client_secret env.now env.exchange cache
  match auth.result with
  | Except.ok token =>
      if ¬(token = "") then
        { result := Except.ok "Success: F5 iHealth API credentials are valid and authentication successful.",
          cache := auth.cache, exchanges := auth.exchanges, requests := 0 }
      else
        { result := Except.ok "Error: Failed to obtain auth token",
          cache := auth.cache, exchanges := auth.exchanges, requests := 0 }
  | Except.error msg =>
      { result := Except.ok ("Error: " ++ msg),
        cache := auth.cache, exchanges := auth.exchanges, requests := 0 }

/-! ### Concrete fixtures used by counterexamples and witnesses -/

/-- An environment with both credential variables unset and a stale cache. -/
def envNoCreds : Env :=
  { client_id := "", client_secret := "", now := 0,
    exchange := ExchangeOutcome.otherError "offline",
    request := RequestOutcome.transportError "offline" }

/-- A 404 response with body `"not found"`. -/
def r404 : HttpResponse :=
  { status := 404, content_type := "application/vnd.f5.ihealth.api+json",
    body := "not found", jsonResult := Except.error "decode error" }

/-- An environment with valid credentials whose API answers with `r404`. -/
def envGood : Env :=
  { client_id := "id", client_secret := "secret", now := 0,
    exchange := ExchangeOutcome.success "tok" (some 1800),
    request := RequestOutcome.response r404 }

/-- A 200 response carrying the vendor XML media type. -/
def rVendorXml : HttpResponse :=
  { status := 200, content_type := "application/vnd.f5.ihealth.api+xml",
    body := "<diagnostics/>", jsonResult := Except.ok "unused" }

/-- A 200 response with `Content-Type: application/xml; charset=utf-8`. -/
def rPlainXml : HttpResponse :=
  { status := 200, content_type := "application/xml; charset=utf-8",
    body := "<a/>", jsonResult := Except.error "decode error" }

/-- A 202 response with a body and a content type that the other branches
would otherwise match. -/
def r202 : HttpResponse :=
  { status := 202, content_type := "application/json",
    body := "ignored", jsonResult := Except.ok "ignored" }

/-- An environment with valid credentials whose API answers with `r202`. -/
def env202 : Env :=
  { client_id := "id", client_secret := "secret", now := 0,
    exchange := ExchangeOutcome.success "tok" (some 1800),
    request := RequestOutcome.response r202 }

/-- A 200 response whose `Content-Type` contains both a JSON media type and
`application/octet-stream`. -/
def rJsonOctet : HttpResponse :=
  { status := 200, content_type := "application/json, application/octet-stream",
    body := "abcd", jsonResult := Except.ok "parsed" }

/-- A 1024-character body. -/
def bin1024 : String := String.mk (List.replicate 1024 'a')

/-- A 200 `application/octet-stream` response with a 1024-byte body. -/
def rBin : HttpResponse :=
  { status := 200, content_type := "application/octet-stream",
    body := bin1024, jsonResult := Except.error "decode error" }

/-- A fresh cache: non-empty token, expiry 1000, so strictly fresh at time 0. -/
def cacheFresh : TokenCache := { token := some "cached-token", expires_at := 1000 }

/-! ### Claim theorems -/

/-- Claim C2: `get_auth_token` returns the cached token, with no token
exchange and no cache mutation, exactly when the cache holds a truthy token
and the current time is strictly below the recorded expiry minus 60 seconds;
otherwise (with credentials configured) exactly one exchange is issued; and a
token is only ever served from the cache (zero exchanges) under that
freshness condition. -/
theorem C2_token_cache_freshness (cid csec : String) (now : Int)
    (ex : ExchangeOutcome) (cache : TokenCache) :
    (tokenTruthy cache.token = true ∧ now < cache.expires_at - 60 →
      get_auth_token cid csec now ex cache =
        { result := Except.ok (cache.token.getD ""), cache := cache, exchanges := 0 }) ∧
    (¬(tokenTruthy cache.token = true ∧ now < cache.expires_at - 60) →
      ¬(cid = "") → ¬(csec = "") →
      (get_auth_token cid csec now ex cache).exchanges = 1) ∧
    (∀ t, (get_auth_token cid csec now ex cache).result = Except.ok t →
      (get_auth_token cid csec now ex cache).exchanges = 0 →
      tokenTruthy cache.token = true ∧ now < cache.expires_at - 60 ∧ t = cache.token.getD "") := by
  by_cases h : tokenTruthy cache.token = true ∧ now < cache.expires_at - 60
  · refine ⟨fun _ => by simp [get_auth_token, h], fun hn => absurd h hn, fun t ht _ => ?_⟩
    simp [get_auth_token, h] at ht
    exact ⟨h.1, h.2, ht.symm⟩
  · refine ⟨fun hc => absurd hc h, fun _ hcid hcsec => ?_, fun t ht hx => ?_⟩
    · cases ex <;> simp [get_auth_token, get_credentials, h, hcid, hcsec]
    · by_cases hcid : cid = ""
      · simp [get_auth_token, get_credentials, h, hcid] at ht
      · by_cases hcsec : csec = ""
        · simp [get_auth_token, get_credentials, h, hcid, hcsec] at ht
        · cases ex <;> simp [get_auth_token, get_credentials, h, hcid, hcsec] at ht hx

/-- Witness for C2: at time 0 with a cached token expiring at 1000, the
cached token is returned unchanged with zero exchanges. -/
theorem C2_witness :
    get_auth_token "id" "secret" 0 (ExchangeOutcome.otherError "offline") cacheFresh =
      { result := Except.ok "cached-token", cache := cacheFresh, exchanges := 0 } :=
  (C2_token_cache_freshness "id" "secret" 0 (ExchangeOutcome.otherError "offline") cacheFresh).1
    ⟨rfl, by decide⟩

/-- Claim C5: every tool operation that requires `qkview_id`, called with an
empty `qkview_id`, returns exactly the text
`"Error: qkview_id parameter is required"` and performs zero HTTP requests
(no token exchange and no API call), leaving the cache untouched —
`localReturn text cache` is that outcome with `exchanges = 0`, `requests = 0`. -/
theorem C5_required_qkview_id_short_circuit (env : Env) (cache : TokenCache)
    (d v fc nf ds f fh cn sn st : String) :
    delete_qkview env "" cache = localReturn "Error: qkview_id parameter is required" cache ∧
    get_qkview_metadata env "" cache = localReturn "Error: qkview_id parameter is required" cache ∧
    update_qkview_metadata env "" d v fc nf cache = localReturn "Error: qkview_id parameter is required" cache ∧
    get_qkview_diagnostics env "" ds f cache = localReturn "Error: qkview_id parameter is required" cache ∧
    get_diagnostics_hits env "" cache = localReturn "Error: qkview_id parameter is required" cache ∧
    get_diagnostics_misses env "" cache = localReturn "Error: qkview_id parameter is required" cache ∧
    list_qkview_files env "" cache = localReturn "Error: qkview_id parameter is required" cache ∧
    get_qkview_file env "" fh cache = localReturn "Error: qkview_id parameter is required" cache ∧
    download_original_qkview env "" cache = localReturn "Error: qkview_id parameter is required" cache ∧
    list_available_commands env "" cache = localReturn "Error: qkview_id parameter is required" cache ∧
    get_command_output env "" cn cache = localReturn "Error: qkview_id parameter is required" cache ∧
    get_bigip_info env "" cache = localReturn "Error: qkview_id parameter is required" cache ∧
    get_bigip_slot_info env "" sn cache = localReturn "Error: qkview_id parameter is required" cache ∧
    get_hardware_info env "" sn cache = localReturn "Error: qkview_id parameter is required" cache ∧
    get_software_info env "" sn cache = localReturn "Error: qkview_id parameter is required" cache ∧
    get_license_info env "" sn cache = localReturn "Error: qkview_id parameter is required" cache ∧
    search_qkview_logs env "" st cache = localReturn "Error: qkview_id parameter is required" cache :=
  ⟨rfl, rfl, rfl, rfl, rfl, rfl, rfl, rfl, rfl, rfl, rfl, rfl, rfl, rfl, rfl, rfl, rfl⟩

/-- Claim C10: `upload_qkview` with a non-empty `file_path` that does not name
an existing file returns exactly `"Error: File not found: <file_path>"` and
performs no HTTP request (no token exchange and no API call). -/
theorem C10_upload_file_not_found (env : Env) (fileExists : String → Bool)
    (file_path d v fc s : String) (cache : TokenCache)
    (hfp : ¬(file_path = "")) (hfe : fileExists file_path = false) :
    upload_qkview env fileExists file_path d v fc s cache =
      localReturn ("Error: File not found: " ++ file_path) cache := by
  simp [upload_qkview, hfp, hfe]

/-- Witness for C10: uploading `/tmp/missing.qkview` against an
everything-missing filesystem short-circuits locally. -/
theorem C10_witness :
    upload_qkview envGood (fun _ => false) "/tmp/missing.qkview" "" "" "" "" initialCache =
      localReturn "Error: File not found: /tmp/missing.qkview" initialCache :=
  C10_upload_file_not_found envGood (fun _ => false) "/tmp/missing.qkview" "" "" "" ""
    initialCache (by decide) rfl

/-- Counterexample to C3: calling the Gateway with method `"PATCH"` (outside
GET/POST/PUT/DELETE), valid credentials and an empty token cache.  The call
does not fail with a raised error — it returns normally with an error dict,
because the internal `ValueError` is caught by the function's own
`except Exception` handler — and a token-exchange network call has already
been issued before the method is examined. -/
theorem C3_counterexample :
    (make_api_request envGood "PATCH" "/qkviews" "" [] false initialCache).result =
      Except.ok (ApiResult.errorShape "API request failed: Unsupported HTTP method: PATCH" none) ∧
    (make_api_request envGood "PATCH" "/qkviews" "" [] false initialCache).exchanges = 1 :=
  ⟨rfl, rfl⟩

/-- Claim C3 (amended): a call with a method outside GET/POST/PUT/DELETE
(case-insensitive) issues no API request and returns the error shape
`"API request failed: Unsupported HTTP method: <method>"` rather than raising
(though the token acquisition preceding the method check may itself have
performed a network call). -/
theorem C3_unsupported_method (env : Env) (method endpoint accept_type : String)
    (data : List (String × String)) (files : Bool) (cache : TokenCache) (tok : String)
    (hm : supportedMethod method = false)
    (ha : (get_auth_token env.client_id env.client_secret env.now env.exchange cache).result =
      Except.ok tok) :
    (make_api_request env method endpoint accept_type data files cache).result =
      Except.ok (ApiResult.errorShape
        ("API request failed: Unsupported HTTP method: " ++ method) none) ∧
    (make_api_request env method endpoint accept_type data files cache).requests = 0 := by
  constructor <;> simp [make_api_request, ha, hm]

/-- Witness for C3 (amended): method `"PATCH"` with valid credentials. -/
theorem C3_witness :
    (make_api_request envGood "PATCH" "/qkviews/1" "" [] false initialCache).result =
      Except.ok (ApiResult.errorShape
        "API request failed: Unsupported HTTP method: PATCH" none) ∧
    (make_api_request envGood "PATCH" "/qkviews/1" "" [] false initialCache).requests = 0 :=
  C3_unsupported_method envGood "PATCH" "/qkviews/1" "" [] false initialCache "tok" rfl rfl

/-- Counterexample to C4: a 200 response whose `Content-Type` is the vendor
media type `application/vnd.f5.ihealth.api+xml` — which contains the
substring `"xml"` — is classified as the opaque `content` shape, not as the
`xml_content` shape: the source only tests for the substrings
`"application/xml"` and `"text/xml"`. -/
theorem C4_counterexample :
    strContains rVendorXml.content_type "xml" = true ∧
    rVendorXml.status = 200 ∧
    classify rVendorXml = ApiResult.content "<diagnostics/>" :=
  ⟨rfl, rfl, rfl⟩

/-- Claim C4 (amended): a 2xx (non-202) response whose `Content-Type`
contains `"application/xml"` or `"text/xml"` — and none of the JSON media
type substrings checked first — is returned as the `xml_content` shape.  The
vendor media type `application/vnd.f5.ihealth.api+xml` contains neither
tested substring and falls through to the opaque `content` shape. -/
theorem C4_xml_classification (r : HttpResponse)
    (h2xx : 200 ≤ r.status ∧ r.status < 300) (h202 : ¬(r.status = 202))
    (hj1 : strContains r.content_type "application/json" = false)
    (hj2 : strContains r.content_type "application/vnd.f5.ihealth.api+json" = false)
    (hx : strContains r.content_type "application/xml" = true ∨
      strContains r.content_type "text/xml" = true) :
    classify r = ApiResult.xmlContent r.body := by
  have hs : ¬(r.status < 200 ∨ 300 ≤ r.status) := by omega
  simp [classify, h202, hs, hj1, hj2, hx]

/-- Witness for C4 (amended): a 200 response with `Content-Type`
`application/xml; charset=utf-8` is returned as the `xml_content` shape. -/
theorem C4_witness : classify rPlainXml = ApiResult.xmlContent "<a/>" :=
  C4_xml_classification rPlainXml (by decide) (by decide) rfl rfl (Or.inl rfl)

/-- Claim C7: every response with HTTP status 202 — regardless of body,
`Content-Type` or the JSON parse outcome — yields the `accepted-pending`
shape (`ApiResult.processing`, the dict with the fixed advisory message
`"Request accepted, processing in progress. Retry in 10 seconds."`), the 202
test being the first classification check. -/
theorem C7_accepted_pending (env : Env) (method endpoint accept_type : String)
    (data : List (String × String)) (files : Bool) (cache : TokenCache)
    (r : HttpResponse) (tok : String)
    (ha : (get_auth_token env.client_id env.client_secret env.now env.exchange cache).result =
      Except.ok tok)
    (hm : supportedMethod method = true)
    (hr : env.request = RequestOutcome.response r)
    (h202 : r.status = 202) :
    (make_api_request env method endpoint accept_type data files cache).result =
      Except.ok ApiResult.processing := by
  simp [make_api_request, ha, hm, hr, classify, h202]

/-- Witness for C7: a 202 response whose body and content type would match
the JSON branch is still returned as `accepted-pending`. -/
theorem C7_witness :
    (make_api_request env202 "GET" "/qkviews/1/diagnostics" "" [] false initialCache).result =
      Except.ok ApiResult.processing :=
  C7_accepted_pending env202 "GET" "/qkviews/1/diagnostics" "" [] false initialCache
    r202 "tok" rfl rfl rfl rfl

/-- Claim C8: in `get_qkview_diagnostics`, a `diagnostic_set` of `"hit"` or
`"miss"` appends `?set=<value>` to the diagnostics path exactly once and any
other value appends nothing; `output_format` `json`/`xml`/`pdf`/`csv`
(case-insensitively, via `.lower()`) selects the corresponding `Accept` media
type, and every other value falls back to the default JSON vendor media type. -/
theorem C8_diagnostics_mapping (qkview_id diagnostic_set output_format : String) :
    ((diagnostic_set = "hit" ∨ diagnostic_set = "miss") →
      get_qkview_diagnostics_endpoint qkview_id diagnostic_set =
        "/qkviews/" ++ qkview_id ++ "/diagnostics" ++ "?set=" ++ diagnostic_set) ∧
    (¬(diagnostic_set = "hit" ∨ diagnostic_set = "miss") →
      get_qkview_diagnostics_endpoint qkview_id diagnostic_set =
        "/qkviews/" ++ qkview_id ++ "/diagnostics") ∧
    (pyLower output_format = "json" →
      diagnostics_accept_type output_format = "application/vnd.f5.ihealth.api+json") ∧
    (pyLower output_format = "xml" →
      diagnostics_accept_type output_format = "application/vnd.f5.ihealth.api+xml") ∧
    (pyLower output_format = "pdf" →
      diagnostics_accept_type output_format = "application/pdf") ∧
    (pyLower output_format = "csv" →
      diagnostics_accept_type output_format = "text/csv") ∧
    (¬(pyLower output_format = "json") → ¬(pyLower output_format = "xml") →
      ¬(pyLower output_format = "pdf") → ¬(pyLower output_format = "csv") →
      diagnostics_accept_type output_format = "application/vnd.f5.ihealth.api+json") := by
  refine ⟨fun h => ?_, fun h => ?_, fun h => ?_, fun h => ?_, fun h => ?_, fun h => ?_,
    fun h1 h2 h3 h4 => ?_⟩ <;>
    simp_all [get_qkview_diagnostics_endpoint, diagnostics_accept_type]

/-- Witness for C8: `diagnostic_set = "hit"` appends the query once,
`output_format = "PDF"` maps to the PDF media type, and an unrecognized
`output_format = "yaml"` falls back to the JSON vendor media type. -/
theorem C8_witness :
    get_qkview_diagnostics_endpoint "123" "hit" = "/qkviews/123/diagnostics?set=hit" ∧
    diagnostics_accept_type "PDF" = "application/pdf" ∧
    diagnostics_accept_type "yaml" = "application/vnd.f5.ihealth.api+json" := by
  refine ⟨?_, ?_, ?_⟩
  · exact (C8_diagnostics_mapping "123" "hit" "PDF").1 (Or.inl rfl)
  · exact (C8_diagnostics_mapping "123" "hit" "PDF").2.2.2.2.1 rfl
  · exact (C8_diagnostics_mapping "123" "hit" "yaml").2.2.2.2.2.2
      (by decide) (by decide) (by decide) (by decide)

/-- Counterexample to C9: a 200 response whose `Content-Type` contains
`application/octet-stream` but also `application/json`.  The JSON branch is
checked first, so the result is the parsed JSON document — derived from the
body — not the length-only binary summary. -/
theorem C9_counterexample :
    strContains rJsonOctet.content_type "application/octet-stream" = true ∧
    rJsonOctet.status = 200 ∧
    classify rJsonOctet = ApiResult.jsonObj "parsed" :=
  ⟨rfl, rfl, rfl⟩

/-- Claim C9 (amended): a 2xx (non-202) response whose `Content-Type`
contains `application/octet-stream` and none of the substrings checked
earlier (the two JSON media types, `application/xml`, `text/xml`) yields the
`binary-summary` shape, which carries only the byte length of the body and a
fixed confirmation message — never the body's bytes.  A `Content-Type` that
also matches an earlier branch is classified by that branch instead. -/
theorem C9_octet_stream_summary (r : HttpResponse)
    (h2xx : 200 ≤ r.status ∧ r.status < 300) (h202 : ¬(r.status = 202))
    (hj1 : strContains r.content_type "application/json" = false)
    (hj2 : strContains r.content_type "application/vnd.f5.ihealth.api+json" = false)
    (hx1 : strContains r.content_type "application/xml" = false)
    (hx2 : strContains r.content_type "text/xml" = false)
    (ho : strContains r.content_type "application/octet-stream" = true) :
    classify r = ApiResult.binarySummary r.body.length := by
  have hs : ¬(r.status < 200 ∨ 300 ≤ r.status) := by omega
  simp [classify, h202, hs, hj1, hj2, hx1, hx2, ho]

set_option maxRecDepth 8192 in
/-- Witness for C9 (amended): a 200 `application/octet-stream` response with
a 1024-byte body reports size 1024. -/
theorem C9_witness : classify rBin = ApiResult.binarySummary 1024 := by
  have h := C9_octet_stream_summary rBin (by decide) (by decide) rfl rfl rfl rfl rfl
  rw [h]
  rfl

/-- Claim C6: every response with a non-2xx HTTP status (202 is 2xx, so it is
excluded automatically) makes the Gateway return — not raise — the error
shape carrying the status code and the raw response body, and the Formatter
renders it as the two lines `"Error: API request failed: <status>"` and
`"Details: <body>"`. -/
theorem C6_error_round_trip (env : Env) (method endpoint accept_type : String)
    (data : List (String × String)) (files : Bool) (cache : TokenCache)
    (r : HttpResponse) (tok : String)
    (ha : (get_auth_token env.client_id env.client_secret env.now env.exchange cache).result =
      Except.ok tok)
    (hm : supportedMethod method = true)
    (hr : env.request = RequestOutcome.response r)
    (hs : r.status < 200 ∨ 300 ≤ r.status) :
    (make_api_request env method endpoint accept_type data files cache).result =
      Except.ok (ApiResult.errorShape
        ("API request failed: " ++ toString r.status) (some r.body)) ∧
    format_response (ApiResult.errorShape
        ("API request failed: " ++ toString r.status) (some r.body)) =
      "Error: API request failed: " ++ toString r.status ++ "\nDetails: " ++ r.body := by
  have h202 : ¬(r.status = 202) := by omega
  constructor
  · simp [make_api_request, ha, hm, hr, classify, h202, hs]
  · show "Error: " ++ ("API request failed: " ++ toString r.status) ++ "\nDetails: " ++ r.body =
      "Error: API request failed: " ++ toString r.status ++ "\nDetails: " ++ r.body
    rw [← String.append_assoc]
    rfl

/-- Witness for C6: a 404 response with body `"not found"` round-trips to the
two-line error text. -/
theorem C6_witness :
    (make_api_request envGood "GET" "/qkviews/1" "" [] false initialCache).result =
      Except.ok (ApiResult.errorShape "API request failed: 404" (some "not found")) ∧
    format_response (ApiResult.errorShape "API request failed: 404" (some "not found")) =
      "Error: API request failed: 404\nDetails: not found" :=
  C6_error_round_trip envGood "GET" "/qkviews/1" "" [] false initialCache r404 "tok"
    rfl rfl rfl (Or.inr (by decide))

/-- Counterexample to C1: with both credential environment variables unset
(every other failure source irrelevant), `list_qkviews` does not return a
formatted error string — the `ValueError` raised by `get_credentials` inside
`get_auth_token` propagates uncaught past the tool-function boundary, because
`make_api_request` calls `get_auth_token()` before its `try` block and
`list_qkviews` has no handler of its own. -/
theorem C1_counterexample :
    (list_qkviews envNoCreds initialCache).result = Except.error credentialsError :=
  rfl

/-- Helper: once token acquisition has succeeded, the shared
`format_response(make_api_request(...))` tail returns text for every request
outcome — any status, any content type, a transport error, or an unsupported
method caught internally. -/
theorem gateway_text_of_auth_ok (env : Env) (method endpoint accept_type : String)
    (data : List (String × String)) (files : Bool) (cache : TokenCache) (tok : String)
    (hm : supportedMethod method = true)
    (ha : (get_auth_token env.client_id env.client_secret env.now env.exchange
      cache).result = Except.ok tok) :
    ∃ t, (formatOrRaise (make_api_request env method endpoint accept_type data files
      cache)).result = Except.ok t := by
  cases hr : env.request <;> simp [formatOrRaise, make_api_request, ha, hm, hr]

/-- Helper: when token acquisition raises, the shared
`format_response(make_api_request(...))` tail propagates exactly that raised
message — no tool code between the call and the return intercepts it. -/
theorem gateway_raises_of_auth_error (env : Env) (method endpoint accept_type : String)
    (data : List (String × String)) (files : Bool) (cache : TokenCache) (msg : String)
    (ha : (get_auth_token env.client_id env.client_secret env.now env.exchange
      cache).result = Except.error msg) :
    (formatOrRaise (make_api_request env method endpoint accept_type data files
      cache)).result = Except.error msg := by
  simp [formatOrRaise, make_api_request, ha]

/-- Helper: the tail of `update_qkview_metadata` after its `qkview_id` guard
(the empty-fields check followed by the Gateway call) returns text whenever
token acquisition succeeded, for any form-field list. -/
theorem update_tail_text (env : Env) (qk : String) (data : List (String × String))
    (cache : TokenCache) (tok : String)
    (ha : (get_auth_token env.client_id env.client_secret env.now env.exchange
      cache).result = Except.ok tok) :
    ∃ t, (if data.isEmpty then
        localReturn "Error: At least one metadata field must be provided to update" cache
      else
        formatOrRaise (make_api_request env "PUT" ("/qkviews/" ++ qk) "" data false
          cache)).result = Except.ok t := by
  by_cases hd : data.isEmpty
  · simp [hd, localReturn]
  · simpa [hd] using gateway_text_of_auth_ok env "PUT" ("/qkviews/" ++ qk) "" data false
      cache tok rfl ha

/-- Helper: the tail of `update_qkview_metadata` after its `qkview_id` guard
propagates a raised token-acquisition failure whenever the form-field list is
non-empty. -/
theorem update_tail_raises (env : Env) (qk : String) (data : List (String × String))
    (cache : TokenCache) (msg : String) (hd : data.isEmpty = false)
    (ha : (get_auth_token env.client_id env.client_secret env.now env.exchange
      cache).result = Except.error msg) :
    (if data.isEmpty then
        localReturn "Error: At least one metadata field must be provided to update" cache
      else
        formatOrRaise (make_api_request env "PUT" ("/qkviews/" ++ qk) "" data false
          cache)).result = Except.error msg := by
  simp only [hd, Bool.false_eq_true, if_false]
  exact gateway_raises_of_auth_error env "PUT" ("/qkviews/" ++ qk) "" data false cache msg ha

/-- Claim C1 (amended): failures arising after token acquisition — remote
HTTP error statuses, transport errors, unsupported methods — are converted to
formatted text by every one of the 20 tools built on the unguarded
`format_response(make_api_request(...))` tail, and `validate_credentials` and
`upload_qkview` convert every failure, including missing-credentials and
authentication ones, to text; but for each of those 20 tools a
missing-credentials or authentication failure raised by `get_auth_token`
propagates past the tool-function boundary (whenever the tool reaches the
Gateway, i.e. its required parameters are non-empty). -/
theorem C1_error_paths_resolve_to_text (env : Env) (cache : TokenCache)
    (fileExists : String → Bool) (fp qk d v fc nf s ds f fh cn sn st : String) :
    (∀ tok, (get_auth_token env.client_id env.client_secret env.now env.exchange
        cache).result = Except.ok tok →
      (∃ t, (list_qkviews env cache).result = Except.ok t) ∧
      (∃ t, (delete_all_qkviews env cache).result = Except.ok t) ∧
      (∃ t, (get_api_info env cache).result = Except.ok t) ∧
      (∃ t, (delete_qkview env qk cache).result = Except.ok t) ∧
      (∃ t, (get_qkview_metadata env qk cache).result = Except.ok t) ∧
      (∃ t, (update_qkview_metadata env qk d v fc nf cache).result = Except.ok t) ∧
      (∃ t, (get_qkview_diagnostics env qk ds f cache).result = Except.ok t) ∧
      (∃ t, (get_diagnostics_hits env qk cache).result = Except.ok t) ∧
      (∃ t, (get_diagnostics_misses env qk cache).result = Except.ok t) ∧
      (∃ t, (list_qkview_files env qk cache).result = Except.ok t) ∧
      (∃ t, (get_qkview_file env qk fh cache).result = Except.ok t) ∧
      (∃ t, (download_original_qkview env qk cache).result = Except.ok t) ∧
      (∃ t, (list_available_commands env qk cache).result = Except.ok t) ∧
      (∃ t, (get_command_output env qk cn cache).result = Except.ok t) ∧
      (∃ t, (get_bigip_info env qk cache).result = Except.ok t) ∧
      (∃ t, (get_bigip_slot_info env qk sn cache).result = Except.ok t) ∧
      (∃ t, (get_hardware_info env qk sn cache).result = Except.ok t) ∧
      (∃ t, (get_software_info env qk sn cache).result = Except.ok t) ∧
      (∃ t, (get_license_info env qk sn cache).result = Except.ok t) ∧
      (∃ t, (search_qkview_logs env qk st cache).result = Except.ok t)) ∧
    (∀ msg, (get_auth_token env.client_id env.client_secret env.now env.exchange
        cache).result = Except.error msg →
      (list_qkviews env cache).result = Except.error msg ∧
      (delete_all_qkviews env cache).result = Except.error msg ∧
      (get_api_info env cache).result = Except.error msg ∧
      (¬(qk = "") → (delete_qkview env qk cache).result = Except.error msg) ∧
      (¬(qk = "") → (get_qkview_metadata env qk cache).result = Except.error msg) ∧
      (¬(qk = "") → ¬(d = "") →
        (update_qkview_metadata env qk d v fc nf cache).result = Except.error msg) ∧
      (¬(qk = "") → (get_qkview_diagnostics env qk ds f cache).result = Except.error msg) ∧
      (¬(qk = "") → (get_diagnostics_hits env qk cache).result = Except.error msg) ∧
      (¬(qk = "") → (get_diagnostics_misses env qk cache).result = Except.error msg) ∧
      (¬(qk = "") → (list_qkview_files env qk cache).result = Except.error msg) ∧
      (¬(qk = "") → ¬(fh = "") →
        (get_qkview_file env qk fh cache).result = Except.error msg) ∧
      (¬(qk = "") → (download_original_qkview env qk cache).result = Except.error msg) ∧
      (¬(qk = "") → (list_available_commands env qk cache).result = Except.error msg) ∧
      (¬(qk = "") → ¬(cn = "") →
        (get_command_output env qk cn cache).result = Except.error msg) ∧
      (¬(qk = "") → (get_bigip_info env qk cache).result = Except.error msg) ∧
      (¬(qk = "") → (get_bigip_slot_info env qk sn cache).result = Except.error msg) ∧
      (¬(qk = "") → (get_hardware_info env qk sn cache).result = Except.error msg) ∧
      (¬(qk = "") → (get_software_info env qk sn cache).result = Except.error msg) ∧
      (¬(qk = "") → (get_license_info env qk sn cache).result = Except.error msg) ∧
      (¬(qk = "") → ¬(st = "") →
        (search_qkview_logs env qk st cache).result = Except.error msg)) ∧
    (∃ t, (validate_credentials env cache).result = Except.ok t) ∧
    (∃ t, (upload_qkview env fileExists fp d v fc s cache).result = Except.ok t) := by
  refine ⟨?_, ?_, ?_, ?_⟩
  · intro tok ha
    refine ⟨?_, ?_, ?_, ?_, ?_, ?_, ?_, ?_, ?_, ?_, ?_, ?_, ?_, ?_, ?_, ?_, ?_, ?_, ?_, ?_⟩
    · exact gateway_text_of_auth_ok env "GET" "/qkviews" "" [] false cache tok rfl ha
    · exact gateway_text_of_auth_ok env "DELETE" "/qkviews" "" [] false cache tok rfl ha
    · exact gateway_text_of_auth_ok env "GET" "/" "" [] false cache tok rfl ha
    · by_cases h : qk = ""
      · simp [delete_qkview, h, localReturn]
      · simpa [delete_qkview, h] using gateway_text_of_auth_ok env "DELETE"
          ("/qkviews/" ++ qk) "" [] false cache tok rfl ha
    · by_cases h : qk = ""
      · simp [get_qkview_metadata, h, localReturn]
      · simpa [get_qkview_metadata, h] using gateway_text_of_auth_ok env "GET"
          ("/qkviews/" ++ qk) "" [] false cache tok rfl ha
    · by_cases h : qk = ""
      · simp [update_qkview_metadata, h, localReturn]
      · simp only [update_qkview_metadata, if_neg h]
        exact update_tail_text env qk _ cache tok ha
    · by_cases h : qk = ""
      · simp [get_qkview_diagnostics, h, localReturn]
      · simpa [get_qkview_diagnostics, h] using gateway_text_of_auth_ok env "GET"
          (get_qkview_diagnostics_endpoint qk ds) (diagnostics_accept_type f) [] false
          cache tok rfl ha
    · by_cases h : qk = ""
      · simp [get_diagnostics_hits, h, localReturn]
      · simpa [get_diagnostics_hits, h] using gateway_text_of_auth_ok env "GET"
          ("/qkviews/" ++ qk ++ "/diagnostics?set=hit") "" [] false cache tok rfl ha
    · by_cases h : qk = ""
      · simp [get_diagnostics_misses, h, localReturn]
      · simpa [get_diagnostics_misses, h] using gateway_text_of_auth_ok env "GET"
          ("/qkviews/" ++ qk ++ "/diagnostics?set=miss") "" [] false cache tok rfl ha
    · by_cases h : qk = ""
      · simp [list_qkview_files, h, localReturn]
      · simpa [list_qkview_files, h] using gateway_text_of_auth_ok env "GET"
          ("/qkviews/" ++ qk ++ "/files") "" [] false cache tok rfl ha
    · by_cases h : qk = ""
      · simp [get_qkview_file, h, localReturn]
      · by_cases h2 : fh = ""
        · simp [get_qkview_file, h, h2, localReturn]
        · simpa [get_qkview_file, h, h2] using gateway_text_of_auth_ok env "GET"
            ("/qkviews/" ++ qk ++ "/files/" ++ fh) "application/octet-stream" [] false
            cache tok rfl ha
    · by_cases h : qk = ""
      · simp [download_original_qkview, h, localReturn]
      · simpa [download_original_qkview, h] using gateway_text_of_auth_ok env "GET"
          ("/qkviews/" ++ qk ++ "/files/qkview") "application/octet-stream" [] false
          cache tok rfl ha
    · by_cases h : qk = ""
      · simp [list_available_commands, h, localReturn]
      · simpa [list_available_commands, h] using gateway_text_of_auth_ok env "GET"
          ("/qkviews/" ++ qk ++ "/commands") "" [] false cache tok rfl ha
    · by_cases h : qk = ""
      · simp [get_command_output, h, localReturn]
      · by_cases h2 : cn = ""
        · simp [get_command_output, h, h2, localReturn]
        · simpa [get_command_output, h, h2] using gateway_text_of_auth_ok env "GET"
            ("/qkviews/" ++ qk ++ "/commands/" ++ cn) "" [] false cache tok rfl ha
    · by_cases h : qk = ""
      · simp [get_bigip_info, h, localReturn]
      · simpa [get_bigip_info, h] using gateway_text_of_auth_ok env "GET"
          ("/qkviews/" ++ qk ++ "/bigip") "" [] false cache tok rfl ha
    · by_cases h : qk = ""
      · simp [get_bigip_slot_info, h, localReturn]
      · simpa [get_bigip_slot_info, h] using gateway_text_of_auth_ok env "GET"
          ("/qkviews/" ++ qk ++ "/bigip/" ++ sn) "" [] false cache tok rfl ha
    · by_cases h : qk = ""
      · simp [get_hardware_info, h, localReturn]
      · simpa [get_hardware_info, h] using gateway_text_of_auth_ok env "GET"
          ("/qkviews/" ++ qk ++ "/bigip/" ++ sn ++ "/hardware") "" [] false cache tok rfl ha
    · by_cases h : qk = ""
      · simp [get_software_info, h, localReturn]
      · simpa [get_software_info, h] using gateway_text_of_auth_ok env "GET"
          ("/qkviews/" ++ qk ++ "/bigip/" ++ sn ++ "/software") "" [] false cache tok rfl ha
    · by_cases h : qk = ""
      · simp [get_license_info, h, localReturn]
      · simpa [get_license_info, h] using gateway_text_of_auth_ok env "GET"
          ("/qkviews/" ++ qk ++ "/bigip/" ++ sn ++ "/license") "" [] false cache tok rfl ha
    · by_cases h : qk = ""
      · simp [search_qkview_logs, h, localReturn]
      · by_cases h2 : st = ""
        · simp [search_qkview_logs, h, h2, localReturn]
        · simpa [search_qkview_logs, h, h2] using gateway_text_of_auth_ok env "GET"
            ("/qkviews/" ++ qk ++ "/logs?search=" ++ st) "" [] false cache tok rfl ha
  · intro msg ha
    refine ⟨?_, ?_, ?_, ?_, ?_, ?_, ?_, ?_, ?_, ?_, ?_, ?_, ?_, ?_, ?_, ?_, ?_, ?_, ?_, ?_⟩
    · exact gateway_raises_of_auth_error env "GET" "/qkviews" "" [] false cache msg ha
    · exact gateway_raises_of_auth_error env "DELETE" "/qkviews" "" [] false cache msg ha
    · exact gateway_raises_of_auth_error env "GET" "/" "" [] false cache msg ha
    · intro h
      simpa [delete_qkview, h] using gateway_raises_of_auth_error env "DELETE"
        ("/qkviews/" ++ qk) "" [] false cache msg ha
    · intro h
      simpa [get_qkview_metadata, h] using gateway_raises_of_auth_error env "GET"
        ("/qkviews/" ++ qk) "" [] false cache msg ha
    · intro h hd
      simp only [update_qkview_metadata, if_neg h]
      refine update_tail_raises env qk _ cache msg ?_ ha
      simp [hd]
    · intro h
      simpa [get_qkview_diagnostics, h] using gateway_raises_of_auth_error env "GET"
        (get_qkview_diagnostics_endpoint qk ds) (diagnostics_accept_type f) [] false
        cache msg ha
    · intro h
      simpa [get_diagnostics_hits, h] using gateway_raises_of_auth_error env "GET"
        ("/qkviews/" ++ qk ++ "/diagnostics?set=hit") "" [] false cache msg ha
    · intro h
      simpa [get_diagnostics_misses, h] using gateway_raises_of_auth_error env "GET"
        ("/qkviews/" ++ qk ++ "/diagnostics?set=miss") "" [] false cache msg ha
    · intro h
      simpa [list_qkview_files, h] using gateway_raises_of_auth_error env "GET"
        ("/qkviews/" ++ qk ++ "/files") "" [] false cache msg ha
    · intro h h2
      simpa [get_qkview_file, h, h2] using gateway_raises_of_auth_error env "GET"
        ("/qkviews/" ++ qk ++ "/files/" ++ fh) "application/octet-stream" [] false
        cache msg ha
    · intro h
      simpa [download_original_qkview, h] using gateway_raises_of_auth_error env "GET"
        ("/qkviews/" ++ qk ++ "/files/qkview") "application/octet-stream" [] false
        cache msg ha
    · intro h
      simpa [list_available_commands, h] using gateway_raises_of_auth_error env "GET"
        ("/qkviews/" ++ qk ++ "/commands") "" [] false cache msg ha
    · intro h h2
      simpa [get_command_output, h, h2] using gateway_raises_of_auth_error env "GET"
        ("/qkviews/" ++ qk ++ "/commands/" ++ cn) "" [] false cache msg ha
    · intro h
      simpa [get_bigip_info, h] using gateway_raises_of_auth_error env "GET"
        ("/qkviews/" ++ qk ++ "/bigip") "" [] false cache msg ha
    · intro h
      simpa [get_bigip_slot_info, h] using gateway_raises_of_auth_error env "GET"
        ("/qkviews/" ++ qk ++ "/bigip/" ++ sn) "" [] false cache msg ha
    · intro h
      simpa [get_hardware_info, h] using gateway_raises_of_auth_error env "GET"
        ("/qkviews/" ++ qk ++ "/bigip/" ++ sn ++ "/hardware") "" [] false cache msg ha
    · intro h
      simpa [get_software_info, h] using gateway_raises_of_auth_error env "GET"
        ("/qkviews/" ++ qk ++ "/bigip/" ++ sn ++ "/software") "" [] false cache msg ha
    · intro h
      simpa [get_license_info, h] using gateway_raises_of_auth_error env "GET"
        ("/qkviews/" ++ qk ++ "/bigip/" ++ sn ++ "/license") "" [] false cache msg ha
    · intro h h2
      simpa [search_qkview_logs, h, h2] using gateway_raises_of_auth_error env "GET"
        ("/qkviews/" ++ qk ++ "/logs?search=" ++ st) "" [] false cache msg ha
  · rcases hv : (get_auth_token env.client_id env.client_secret env.now env.exchange
        cache).result with msg | tok
    · simp [validate_credentials, hv]
    · by_cases ht : tok = "" <;> simp [validate_credentials, hv, ht]
  · by_cases hfp : fp = ""
    · simp [upload_qkview, hfp, localReturn]
    · by_cases hfe : fileExists fp = true
      · rcases ha : (get_auth_token env.client_id env.client_secret env.now env.exchange
            cache).result with msg | tok
        · simp [upload_qkview, hfp, hfe, make_api_request, ha]
        · have hpost : supportedMethod "POST" = true := rfl
          cases hr : env.request <;>
            simp [upload_qkview, hfp, hfe, make_api_request, ha, hpost, hr]
      · simp [upload_qkview, hfp, hfe, localReturn]

/-- Witness for C1 (amended): with valid credentials and a 404-answering API,
`list_qkviews` returns text; with no credentials configured, `delete_qkview`
on a non-empty id raises the credentials `ValueError`, while
`validate_credentials` and `upload_qkview` still return text. -/
theorem C1_witness :
    (∃ t, (list_qkviews envGood initialCache).result = Except.ok t) ∧
    (delete_qkview envNoCreds "1" initialCache).result = Except.error credentialsError ∧
    (∃ t, (validate_credentials envNoCreds initialCache).result = Except.ok t) ∧
    (∃ t, (upload_qkview envNoCreds (fun _ => true) "/tmp/a.qkview" "" "" "" ""
        initialCache).result = Except.ok t) := by
  refine ⟨?_, ?_, ?_, ?_⟩
  · exact ((C1_error_paths_resolve_to_text envGood initialCache (fun _ => true)
      "/tmp/a.qkview" "1" "" "" "" "" "" "" "" "" "" "" "").1 "tok" rfl).1
  · exact (((C1_error_paths_resolve_to_text envNoCreds initialCache (fun _ => true)
      "/tmp/a.qkview" "1" "" "" "" "" "" "" "" "" "" "" "").2.1 credentialsError
        rfl).2.2.2.1) (by decide)
  · exact (C1_error_paths_resolve_to_text envNoCreds initialCache (fun _ => true)
      "/tmp/a.qkview" "1" "" "" "" "" "" "" "" "" "" "" "").2.2.1
  · exact (C1_error_paths_resolve_to_text envNoCreds initialCache (fun _ => true)
      "/tmp/a.qkview" "1" "" "" "" "" "" "" "" "" "" "" "").2.2.2

end IHealth
